import Mathlib

/-!
Verification of the polling / upload-orchestration layer of the DockGuard AI
frontend (src/frontend/app.js).

The JavaScript source keeps its state in module-level globals
(`currentPage`, `currentDocId`, `currentBatchId`, `currentBatchDocIds`,
`processingInterval`, `agentStepInterval`) and drives long-running analysis
jobs with two recurring timers per submission:

* `processingInterval` — a `setInterval` whose async callback fetches the
  job (or batch) status and, on a terminal status, clears both timers and
  runs completion/failure handling;
* `agentStepInterval` — a decorative stage animator that advances a local
  `step` counter and clears its own timer when the counter passes the
  number of stages.

We embed those globals as a record `AppState`, embed the relevant functions
(`resetUpload`, `navigateTo`, `loadAnalysis`, `deleteDocument`,
`deleteHistoryItem`, the single/batch poll-tick handlers) as state
transformers, and embed the browser event loop as a trace of schedulable
events (`timerFire`, `respond`, `teardown`).  DOM-only statements
(class-list edits, innerHTML, styles, status text) are not part of the
model; `alert(...)` calls are counted, and `loadAnalysis` invocations are
logged so that "what was displayed, with which batch context" is
observable.  The 1200 ms / 2000 ms `setTimeout` that defers the completion
continuation is folded into the completed branch: the continuation only
writes globals and navigates, and nothing in the modelled system can run
between the timer callback and its continuation in a way any claim below
depends on; the statement order inside the continuation is preserved.
-/

namespace DockGuardAI

/-- status strings reported by the backend for a document or a batch
(`sData.document.status`, `sData.batch.status`). -/
inductive DocStatus
  | queued
  | processing
  | completed
  | failed
deriving DecidableEq, Repr

/-- outcome of one status query issued by a polling tick: either a parsed
response carrying a status, or a transport/parse error, which the handler
swallows with its empty `catch (_) {}` block. -/
inductive QueryResult
  | ok (s : DocStatus)
  | transportError
deriving DecidableEq, Repr

/-- pages of the single-page app, as dispatched by `navigateTo`. -/
inductive Page
  | dashboard
  | upload
  | documents
  | standards
  | history
  | analysis
  | chat
deriving DecidableEq, Repr

/-- observable view-loading effects of `navigateTo`'s analysis branch:
either a `loadAnalysis(docId, batchId)` call — recorded together with the
value of the global `currentBatchDocIds` at call time, which is what the
detail view reads to decide whether batch tabs render — or a call to
`fetchLatestDocForAnalysis` (the no-doc-context fallback, whose outcome
depends on a server response outside the model). -/
inductive LoadEvent
  | loadAnalysisCall (docId : Nat) (batchIdArg : Option Nat) (batchDocIdsNow : List Nat)
  | fetchLatestCall
deriving DecidableEq, Repr

/-- the module-level globals of app.js that the claims are about, plus
instrumentation fields (counters and logs) recording the externally
observable callback activity of one submission.

`processingInterval = some j` means the variable holds a live recurring
status-poll timer whose callback polls id `j` (document id for the single
flow, batch id for the batch flow); `none` means the variable is null or
the timer has been cleared.  `agentStepActive` records whether
`agentStepInterval` holds a live timer.  `inFlight` counts status queries
that have been issued by a timer fire but whose response has not yet been
processed.  Document and batch ids are positive database ids, so the
JavaScript truthiness test `if (currentBatchId)` is modelled by
`Option.isSome`. -/
structure AppState where
  currentPage : Page
  currentDocId : Option Nat
  currentBatchId : Option Nat
  currentBatchDocIds : List Nat
  processingInterval : Option Nat
  agentStepActive : Bool
  inFlight : Nat
  completedFired : Nat
  failedFired : Nat
  okTicks : Nat
  errorTicks : Nat
  tickAfterTerminal : Bool
  alerts : Nat
  loads : List LoadEvent
deriving DecidableEq, Repr

/-- embedding of `resetUpload()` (app.js lines 259-270): clears both
recurring timers and nulls their handles.  The remaining statements of the
function only reset DOM state (`selectedFiles`, input value, overlay and
progress-panel visibility) and are outside the model.  Note that it does
not touch `currentBatchId` / `currentBatchDocIds`, and that it contains no
"cancelled" flag: an async poll callback that is already awaiting a fetch
is not affected by the `clearInterval` calls here. -/
def resetUpload (st : AppState) : AppState :=
  { st with processingInterval := none, agentStepActive := false }

/-- embedding of `loadAnalysis(docId, batchId)` (app.js line 643 ff.)
restricted to the modelled globals: it assigns `currentDocId = docId` and
renders the detail view; everything else it does is fetch/DOM work.  The
call is logged together with the batch id it received and the value of the
global `currentBatchDocIds` it reads for batch-tab rendering. -/
def loadAnalysis (docId : Nat) (batchId : Option Nat) (st : AppState) : AppState :=
  { st with
      currentDocId := some docId
      loads := st.loads ++ [LoadEvent.loadAnalysisCall docId batchId st.currentBatchDocIds] }

/-- embedding of `navigateTo(page, docId)` (app.js lines 17-55).  It first
sets `currentPage = page`, then dispatches: the upload page runs
`resetUpload()`; the analysis page runs the batch-membership check
(lines 40-43: if `currentBatchId` is set and `docId` is not in
`currentBatchDocIds`, clear both) before calling
`loadAnalysis(docId, currentBatchId)`; with no `docId` it falls back to the
last viewed document or to `fetchLatestDocForAnalysis()`.  The other pages
only load and render data and do not write any modelled global. -/
def navigateTo (page : Page) (docId : Option Nat) (st : AppState) : AppState :=
  let st := { st with currentPage := page }
  match page with
  | Page.upload => resetUpload st
  | Page.analysis =>
      match docId with
      | some d =>
          let st :=
            if st.currentBatchId.isSome && !(st.currentBatchDocIds.contains d) then
              { st with currentBatchId := none, currentBatchDocIds := [] }
            else st
          loadAnalysis d st.currentBatchId st
      | none =>
          match st.currentDocId with
          | some d => loadAnalysis d st.currentBatchId st
          | none => { st with loads := st.loads ++ [LoadEvent.fetchLatestCall] }
  | _ => st

/-- embedding of the success/failure continuation of `deleteDocument(docId,
filename)` (app.js lines 1658-1713), taken after the user confirmed the
dialog; `ok` tells whether the DELETE request succeeded.  On success the
function refreshes the current page: from the analysis page it navigates to
the documents page, otherwise it re-navigates to the current page.  On
failure it alerts.  Nothing in the function clears `processingInterval` or
`agentStepInterval` directly. -/
def deleteDocument (docId : Nat) (st : AppState) (ok : Bool) : AppState :=
  if ok then
    if st.currentPage = Page.analysis then
      navigateTo Page.documents none st
    else
      navigateTo st.currentPage none st
  else
    { st with alerts := st.alerts + 1 }

/-- kind selector of `deleteHistoryItem(type, realId)`: the string
`type === 'batch'` chooses the batch endpoint, anything else the document
endpoint. -/
inductive HistoryKind
  | doc
  | batch
deriving DecidableEq, Repr

/-- embedding of `deleteHistoryItem(type, realId)` (app.js lines 601-619),
after the confirm dialog.  On success it calls `loadHistory()` (pure
fetch/render, no modelled global is written); on failure it alerts.  It
never touches the poll or animator timers. -/
def deleteHistoryItem (ty : HistoryKind) (realId : Nat) (st : AppState) (ok : Bool) :
    AppState :=
  if ok then st else { st with alerts := st.alerts + 1 }

/-! The decorative agent-step animator (app.js lines 334-344 for the
single flow, 422-432 for the batch flow; both have the same body and
differ only in cadence).  The callback closes over a local counter
`step` starting at 0; each tick either marks stage `step` active and
increments the counter (while `step < steps.length`) or clears its own
timer. -/

/-- local state of one animator: the `step` counter of the closure and
whether `agentStepInterval` still holds the live timer. -/
structure AnimatorState where
  step : Nat
  stepTimerActive : Bool
deriving DecidableEq, Repr

/-- one tick of the agent-step animator over `stageCount` stages
(`stageCount` is `document.querySelectorAll('.agent-step').length`): if
the timer is live and `step < stageCount`, the DOM stage is advanced and
`step` incremented; if the timer is live and `step` has reached
`stageCount`, the callback clears its own timer; a cleared timer never
ticks again, which we model as a no-op. -/
def agentStepTick (stageCount : Nat) (st : AnimatorState) : AnimatorState :=
  if st.stepTimerActive then
    if st.step < stageCount then { st with step := st.step + 1 }
    else { st with stepTimerActive := false }
  else st

/-- animator state after `n` ticks from the start of `setInterval`
(`step = 0`, timer live). -/
def animRun (stageCount : Nat) : Nat → AnimatorState
  | 0 => { step := 0, stepTimerActive := true }
  | n + 1 => agentStepTick stageCount (animRun stageCount n)

/-! The status pollers.  `uploadSingle` (app.js lines 310-379): after a
successful upload it stores a live recurring timer in
`processingInterval = setInterval(async () => {...}, 3000)`; each fire
issues `fetch('/api/documents/' + docId)` and, when the response resolves,
the remainder of the callback body inspects `sData.document.status`:

* 'completed' — `clearInterval` on both timers, DOM updates, then a
  1200 ms `setTimeout` runs `resetUpload(); currentBatchId = null;
  currentBatchDocIds = []; navigateTo('analysis', docId);`
* 'failed' — `clearInterval` on both timers, `alert(...)`, `resetUpload()`;
* anything else — nothing;
* the whole body sits in `try {...} catch (_) {}`, so a transport or parse
  error does nothing at all.

`uploadBatch` (app.js lines 381-497) is structurally identical at 5000 ms,
polling `/api/batch-analysis/' + batchId` and inspecting
`sData.batch.status`; its completed continuation (2000 ms) instead runs
`resetUpload(); currentBatchId = batchId; currentBatchDocIds = docIds;`
and navigates to the first document of the batch (or to the documents page
when the batch is empty); its per-member progress rendering is DOM-only.

Because the callbacks are async and `setInterval` never waits for them,
the timer keeps firing while a response is pending, and `clearInterval`
does not stop a callback that is already awaiting its fetch.  The model
therefore separates the two halves of a tick: a `timerFire` event issues a
query (increments `inFlight`) and a `respond` event delivers one pending
response to the handler body.  A `teardown` event is an external
`resetUpload()` call (the orchestrator teardown path). -/

/-- instrumentation shared by both tick handlers: any handler-body run that
happens after a terminal branch has already fired is recorded in
`tickAfterTerminal`. -/
def noteTickAfterTerminal (st : AppState) : AppState :=
  { st with
      tickAfterTerminal :=
        st.tickAfterTerminal || decide (0 < st.completedFired + st.failedFired) }

/-- embedding of the body of the single-flow poll callback
(app.js lines 348-373), run when the status response for document `docId`
resolves (or fails to). -/
def singleTickHandler (docId : Nat) (r : QueryResult) (st : AppState) : AppState :=
  let st := noteTickAfterTerminal st
  match r with
  | QueryResult.transportError => { st with errorTicks := st.errorTicks + 1 }
  | QueryResult.ok s =>
      let st := { st with okTicks := st.okTicks + 1 }
      match s with
      | DocStatus.completed =>
          let st :=
            { st with
                processingInterval := none
                agentStepActive := false
                completedFired := st.completedFired + 1 }
          let st := resetUpload st
          let st := { st with currentBatchId := none }
          let st := { st with currentBatchDocIds := [] }
          navigateTo Page.analysis (some docId) st
      | DocStatus.failed =>
          let st :=
            { st with
                processingInterval := none
                agentStepActive := false
                failedFired := st.failedFired + 1
                alerts := st.alerts + 1 }
          resetUpload st
      | _ => st

/-- embedding of the body of the batch-flow poll callback
(app.js lines 436-491), run when the status response for batch `batchId`
resolves; `docIds` is the `document_ids` list captured by the closure at
submission time. -/
def batchTickHandler (batchId : Nat) (docIds : List Nat) (r : QueryResult)
    (st : AppState) : AppState :=
  let st := noteTickAfterTerminal st
  match r with
  | QueryResult.transportError => { st with errorTicks := st.errorTicks + 1 }
  | QueryResult.ok s =>
      let st := { st with okTicks := st.okTicks + 1 }
      match s with
      | DocStatus.completed =>
          let st :=
            { st with
                processingInterval := none
                agentStepActive := false
                completedFired := st.completedFired + 1 }
          let st := resetUpload st
          let st := { st with currentBatchId := some batchId }
          let st := { st with currentBatchDocIds := docIds }
          match docIds with
          | d :: _ => navigateTo Page.analysis (some d) st
          | [] => navigateTo Page.documents none st
      | DocStatus.failed =>
          let st :=
            { st with
                processingInterval := none
                agentStepActive := false
                failedFired := st.failedFired + 1
                alerts := st.alerts + 1 }
          resetUpload st
      | _ => st

/-- schedulable event-loop steps of one submission's polling system. -/
inductive PollStep
  | timerFire
  | respond (r : QueryResult)
  | teardown
deriving DecidableEq, Repr

/-- one event-loop step, parameterized by the handler body the recurring
timer was created with.  A `timerFire` only happens while the recurring
timer is live and issues one status query; a `respond` delivers one pending
response to the handler (a cleared timer does not recall an already-issued
query, so responses outlive `clearInterval`); `teardown` is an external
`resetUpload()`. -/
def stepWith (handler : QueryResult → AppState → AppState) (st : AppState) :
    PollStep → AppState
  | PollStep.timerFire =>
      if st.processingInterval.isSome then { st with inFlight := st.inFlight + 1 } else st
  | PollStep.respond r =>
      if 0 < st.inFlight then handler r { st with inFlight := st.inFlight - 1 } else st
  | PollStep.teardown => resetUpload st

/-- run of a trace of event-loop steps from a state. -/
def runWith (handler : QueryResult → AppState → AppState) (st : AppState)
    (tr : List PollStep) : AppState :=
  tr.foldl (stepWith handler) st

/-- event-loop step of the single-document flow polling document `docId`. -/
def singleStep (docId : Nat) (st : AppState) : PollStep → AppState :=
  stepWith (singleTickHandler docId) st

/-- event-loop step of the batch flow polling batch `batchId` with member
documents `docIds`. -/
def batchStep (batchId : Nat) (docIds : List Nat) (st : AppState) : PollStep → AppState :=
  stepWith (batchTickHandler batchId docIds) st

/-- run of the single-document poll system on a trace. -/
def runSingle (docId : Nat) (st : AppState) (tr : List PollStep) : AppState :=
  runWith (singleTickHandler docId) st tr

/-- run of the batch poll system on a trace. -/
def runBatch (batchId : Nat) (docIds : List Nat) (st : AppState) (tr : List PollStep) :
    AppState :=
  runWith (batchTickHandler batchId docIds) st tr

/-- state right after `uploadSingle` successfully submitted document
`docId` and installed both timers (app.js lines 330-347): the poll timer is
bound to `docId`, the animator timer is live, and no query has been issued
yet.  The instrumentation counters of the new submission start at zero; the
pre-existing page, document and batch-context globals are whatever they
were in `st`. -/
def startSingle (docId : Nat) (st : AppState) : AppState :=
  { st with
      processingInterval := some docId
      agentStepActive := true
      inFlight := 0
      completedFired := 0
      failedFired := 0
      okTicks := 0
      errorTicks := 0
      tickAfterTerminal := false
      loads := [] }

/-- state right after `uploadBatch` successfully submitted batch `batchId`
and installed both timers (app.js lines 417-435). -/
def startBatch (batchId : Nat) (st : AppState) : AppState :=
  { st with
      processingInterval := some batchId
      agentStepActive := true
      inFlight := 0
      completedFired := 0
      failedFired := 0
      okTicks := 0
      errorTicks := 0
      tickAfterTerminal := false
      loads := [] }

/-- realizable schedules: a `timerFire` requires the recurring timer to be
live (a cleared `setInterval` never fires) and a `respond` requires a
pending query to resolve. -/
def validFrom (handler : QueryResult → AppState → AppState) (st : AppState) :
    List PollStep → Bool
  | [] => true
  | PollStep.timerFire :: tr =>
      st.processingInterval.isSome &&
        validFrom handler (stepWith handler st PollStep.timerFire) tr
  | PollStep.respond r :: tr =>
      decide (0 < st.inFlight) &&
        validFrom handler (stepWith handler st (PollStep.respond r)) tr
  | PollStep.teardown :: tr =>
      validFrom handler (stepWith handler st PollStep.teardown) tr

/-- prompt schedules: realizable schedules in which every status query
resolves and is processed before the next timer fire, i.e. the timer never
fires while a query is still in flight.  This is the timing regime in which
each fetch completes within the polling interval. -/
def promptFrom (handler : QueryResult → AppState → AppState) (st : AppState) :
    List PollStep → Bool
  | [] => true
  | PollStep.timerFire :: tr =>
      st.processingInterval.isSome && decide (st.inFlight = 0) &&
        promptFrom handler (stepWith handler st PollStep.timerFire) tr
  | PollStep.respond r :: tr =>
      decide (0 < st.inFlight) &&
        promptFrom handler (stepWith handler st (PollStep.respond r)) tr
  | PollStep.teardown :: tr =>
      promptFrom handler (stepWith handler st PollStep.teardown) tr

/-- total number of terminal-branch executions (completed or failed) a
state has recorded. -/
def terminalsFired (st : AppState) : Nat :=
  st.completedFired + st.failedFired

/-- polling cadence of the single-document flow: the second argument of
`setInterval` at app.js line 374. -/
def singlePollIntervalMs : Nat := 3000

/-- polling cadence of the batch flow: the second argument of
`setInterval` at app.js line 492. -/
def batchPollIntervalMs : Nat := 5000

/-- a query result whose status is terminal for the poll handlers. -/
def IsTerminalResult (r : QueryResult) : Prop :=
  r = QueryResult.ok DocStatus.completed ∨ r = QueryResult.ok DocStatus.failed

instance : DecidablePred IsTerminalResult := by
  intro r
  unfold IsTerminalResult
  infer_instance

/-- the safety invariant of a poll run under prompt scheduling: at most one
query in flight, at most one terminal branch fired, no handler body has run
after a terminal branch, and once a terminal branch fired the recurring
timer is cleared and nothing is in flight. -/
def PollInv (st : AppState) : Prop :=
  st.inFlight ≤ 1
  ∧ terminalsFired st ≤ 1
  ∧ st.tickAfterTerminal = false
  ∧ (0 < terminalsFired st → st.processingInterval = none ∧ st.inFlight = 0)

/-- a fresh app state, as after the initial script load: dashboard page,
all globals null/empty, no timers, no recorded activity.  Used as the base
state of concrete runs. -/
def blankState : AppState :=
  { currentPage := Page.dashboard
    currentDocId := none
    currentBatchId := none
    currentBatchDocIds := []
    processingInterval := none
    agentStepActive := false
    inFlight := 0
    completedFired := 0
    failedFired := 0
    okTicks := 0
    errorTicks := 0
    tickAfterTerminal := false
    alerts := 0
    loads := [] }

/-- the schedule of spec scenario A: three ticks whose queries resolve
with status processing, then a fourth whose query resolves completed; each
response is processed before the next tick fires. -/
def scenarioA : List PollStep :=
  [PollStep.timerFire, PollStep.respond (QueryResult.ok DocStatus.processing),
   PollStep.timerFire, PollStep.respond (QueryResult.ok DocStatus.processing),
   PollStep.timerFire, PollStep.respond (QueryResult.ok DocStatus.processing),
   PollStep.timerFire, PollStep.respond (QueryResult.ok DocStatus.completed)]

/-- an overlapping schedule: the first status query is still unresolved
when the timer fires again (its fetch took longer than the polling
interval), then both responses come back completed. -/
def overlapTrace : List PollStep :=
  [PollStep.timerFire, PollStep.timerFire,
   PollStep.respond (QueryResult.ok DocStatus.completed),
   PollStep.respond (QueryResult.ok DocStatus.completed)]

/-- a teardown-mid-flight schedule: one query is issued, `resetUpload()`
runs while it is in flight, then the response arrives completed. -/
def midFlightTeardownTrace : List PollStep :=
  [PollStep.timerFire, PollStep.teardown,
   PollStep.respond (QueryResult.ok DocStatus.completed)]

/-- a state with an active batch context over documents 2 and 3, used as a
concrete input for batch-membership witnesses. -/
def batchCtxState : AppState :=
  { blankState with currentBatchId := some 9, currentBatchDocIds := [2, 3] }

/-- a state sitting on the documents page while a poll timer for document
7 is still live, used as a concrete input for the deletion claims. -/
def pollingOnDocumentsState : AppState :=
  { blankState with currentPage := Page.documents, processingInterval := some 7 }

/-! Helper lemmas. -/

/-- navigateTo never touches the instrumentation counters: every page
branch only rewrites page/view/context/timer fields. -/
lemma navigateTo_counters (page : Page) (docId : Option Nat) (st : AppState) :
    (navigateTo page docId st).inFlight = st.inFlight
    ∧ (navigateTo page docId st).completedFired = st.completedFired
    ∧ (navigateTo page docId st).failedFired = st.failedFired
    ∧ (navigateTo page docId st).okTicks = st.okTicks
    ∧ (navigateTo page docId st).errorTicks = st.errorTicks
    ∧ (navigateTo page docId st).tickAfterTerminal = st.tickAfterTerminal
    ∧ (navigateTo page docId st).alerts = st.alerts := by
  cases page <;> cases docId <;> cases hcd : st.currentDocId <;>
    simp [navigateTo, resetUpload, loadAnalysis, hcd] <;>
    split <;> simp [loadAnalysis]

/-- outside the upload page, navigateTo leaves the recurring poll timer
alone. -/
lemma navigateTo_processingInterval (page : Page) (docId : Option Nat) (st : AppState)
    (h : page ≠ Page.upload) :
    (navigateTo page docId st).processingInterval = st.processingInterval := by
  cases page <;> cases docId <;> cases hcd : st.currentDocId <;>
    simp [navigateTo, resetUpload, loadAnalysis, hcd] at h ⊢ <;>
    split <;> simp [loadAnalysis]

/-- projection form of `navigateTo_counters` for the in-flight count. -/
lemma navigateTo_inFlight (page : Page) (docId : Option Nat) (st : AppState) :
    (navigateTo page docId st).inFlight = st.inFlight :=
  (navigateTo_counters page docId st).1

/-- projection form of `navigateTo_counters` for the completed counter. -/
lemma navigateTo_completedFired (page : Page) (docId : Option Nat) (st : AppState) :
    (navigateTo page docId st).completedFired = st.completedFired :=
  (navigateTo_counters page docId st).2.1

/-- projection form of `navigateTo_counters` for the failed counter. -/
lemma navigateTo_failedFired (page : Page) (docId : Option Nat) (st : AppState) :
    (navigateTo page docId st).failedFired = st.failedFired :=
  (navigateTo_counters page docId st).2.2.1

/-- projection form of `navigateTo_counters` for the ok-tick counter. -/
lemma navigateTo_okTicks (page : Page) (docId : Option Nat) (st : AppState) :
    (navigateTo page docId st).okTicks = st.okTicks :=
  (navigateTo_counters page docId st).2.2.2.1

/-- projection form of `navigateTo_counters` for the error-tick counter. -/
lemma navigateTo_errorTicks (page : Page) (docId : Option Nat) (st : AppState) :
    (navigateTo page docId st).errorTicks = st.errorTicks :=
  (navigateTo_counters page docId st).2.2.2.2.1

/-- projection form of `navigateTo_counters` for the tick-after-terminal
flag. -/
lemma navigateTo_tickAfterTerminal (page : Page) (docId : Option Nat) (st : AppState) :
    (navigateTo page docId st).tickAfterTerminal = st.tickAfterTerminal :=
  (navigateTo_counters page docId st).2.2.2.2.2.1

/-- projection form of `navigateTo_counters` for the alert counter. -/
lemma navigateTo_alerts (page : Page) (docId : Option Nat) (st : AppState) :
    (navigateTo page docId st).alerts = st.alerts :=
  (navigateTo_counters page docId st).2.2.2.2.2.2

/-- the single-flow tick handler does not touch the in-flight query
count. -/
lemma singleTickHandler_inFlight (docId : Nat) (r : QueryResult) (st : AppState) :
    (singleTickHandler docId r st).inFlight = st.inFlight := by
  cases r with
  | transportError => rfl
  | ok s =>
      cases s with
      | completed =>
          simp [singleTickHandler, noteTickAfterTerminal, resetUpload, navigateTo_inFlight]
      | _ => rfl

/-- the batch-flow tick handler does not touch the in-flight query
count. -/
lemma batchTickHandler_inFlight (batchId : Nat) (docIds : List Nat) (r : QueryResult)
    (st : AppState) :
    (batchTickHandler batchId docIds r st).inFlight = st.inFlight := by
  cases r with
  | transportError => rfl
  | ok s =>
      cases s with
      | completed =>
          cases docIds with
          | nil =>
              simp [batchTickHandler, noteTickAfterTerminal, resetUpload, navigateTo_inFlight]
          | cons d rest =>
              simp [batchTickHandler, noteTickAfterTerminal, resetUpload, navigateTo_inFlight]
      | _ => rfl

/-- outside the upload branch, navigateTo to the analysis page leaves the
poll timer alone (projection form usable by simp). -/
lemma navigateTo_analysis_processingInterval (docId : Option Nat) (st : AppState) :
    (navigateTo Page.analysis docId st).processingInterval = st.processingInterval :=
  navigateTo_processingInterval Page.analysis docId st (by simp)

/-- navigateTo to the documents page leaves the poll timer alone
(projection form usable by simp). -/
lemma navigateTo_documents_processingInterval (docId : Option Nat) (st : AppState) :
    (navigateTo Page.documents docId st).processingInterval = st.processingInterval :=
  navigateTo_processingInterval Page.documents docId st (by simp)

/-- on a terminal response the single-flow handler runs the terminal
branch exactly once and leaves the recurring timer cleared. -/
lemma singleTickHandler_terminal (docId : Nat) (r : QueryResult) (st : AppState)
    (h : IsTerminalResult r) :
    terminalsFired (singleTickHandler docId r st) = terminalsFired st + 1
    ∧ (singleTickHandler docId r st).processingInterval = none := by
  rcases h with h | h <;> subst h
  · constructor
    · simp [singleTickHandler, noteTickAfterTerminal, resetUpload, terminalsFired,
        navigateTo_completedFired, navigateTo_failedFired]
      omega
    · simp [singleTickHandler, noteTickAfterTerminal, resetUpload,
        navigateTo_analysis_processingInterval]
  · exact ⟨rfl, rfl⟩

/-- on a non-terminal response the single-flow handler neither runs a
terminal branch nor touches the recurring timer. -/
lemma singleTickHandler_nonterminal (docId : Nat) (r : QueryResult) (st : AppState)
    (h : ¬IsTerminalResult r) :
    terminalsFired (singleTickHandler docId r st) = terminalsFired st
    ∧ (singleTickHandler docId r st).processingInterval = st.processingInterval := by
  cases r with
  | transportError => exact ⟨rfl, rfl⟩
  | ok s =>
      cases s with
      | queued => exact ⟨rfl, rfl⟩
      | processing => exact ⟨rfl, rfl⟩
      | completed => exact absurd (Or.inl rfl) h
      | failed => exact absurd (Or.inr rfl) h

/-- the single-flow handler records whether it ran after a terminal branch
had already fired. -/
lemma singleTickHandler_tickFlag (docId : Nat) (r : QueryResult) (st : AppState) :
    (singleTickHandler docId r st).tickAfterTerminal
      = (st.tickAfterTerminal || decide (0 < terminalsFired st)) := by
  cases r with
  | transportError => rfl
  | ok s =>
      cases s with
      | completed =>
          simp [singleTickHandler, noteTickAfterTerminal, resetUpload, terminalsFired,
            navigateTo_tickAfterTerminal]
      | _ => rfl

/-- on a terminal response the batch-flow handler runs the terminal branch
exactly once and leaves the recurring timer cleared. -/
lemma batchTickHandler_terminal (batchId : Nat) (docIds : List Nat) (r : QueryResult)
    (st : AppState) (h : IsTerminalResult r) :
    terminalsFired (batchTickHandler batchId docIds r st) = terminalsFired st + 1
    ∧ (batchTickHandler batchId docIds r st).processingInterval = none := by
  rcases h with h | h <;> subst h
  · cases docIds with
    | nil =>
        constructor
        · simp [batchTickHandler, noteTickAfterTerminal, resetUpload, terminalsFired,
            navigateTo_completedFired, navigateTo_failedFired]
          omega
        · simp [batchTickHandler, noteTickAfterTerminal, resetUpload,
            navigateTo_documents_processingInterval]
    | cons d rest =>
        constructor
        · simp [batchTickHandler, noteTickAfterTerminal, resetUpload, terminalsFired,
            navigateTo_completedFired, navigateTo_failedFired]
          omega
        · simp [batchTickHandler, noteTickAfterTerminal, resetUpload,
            navigateTo_analysis_processingInterval]
  · exact ⟨rfl, rfl⟩

/-- on a non-terminal response the batch-flow handler neither runs a
terminal branch nor touches the recurring timer. -/
lemma batchTickHandler_nonterminal (batchId : Nat) (docIds : List Nat) (r : QueryResult)
    (st : AppState) (h : ¬IsTerminalResult r) :
    terminalsFired (batchTickHandler batchId docIds r st) = terminalsFired st
    ∧ (batchTickHandler batchId docIds r st).processingInterval = st.processingInterval := by
  cases r with
  | transportError => exact ⟨rfl, rfl⟩
  | ok s =>
      cases s with
      | queued => exact ⟨rfl, rfl⟩
      | processing => exact ⟨rfl, rfl⟩
      | completed => exact absurd (Or.inl rfl) h
      | failed => exact absurd (Or.inr rfl) h

/-- the batch-flow handler records whether it ran after a terminal branch
had already fired. -/
lemma batchTickHandler_tickFlag (batchId : Nat) (docIds : List Nat) (r : QueryResult)
    (st : AppState) :
    (batchTickHandler batchId docIds r st).tickAfterTerminal
      = (st.tickAfterTerminal || decide (0 < terminalsFired st)) := by
  cases r with
  | transportError => rfl
  | ok s =>
      cases s with
      | completed =>
          cases docIds with
          | nil =>
              simp [batchTickHandler, noteTickAfterTerminal, resetUpload, terminalsFired,
                navigateTo_tickAfterTerminal]
          | cons d rest =>
              simp [batchTickHandler, noteTickAfterTerminal, resetUpload, terminalsFired,
                navigateTo_tickAfterTerminal]
      | _ => rfl

/-- a record-update that only touches `inFlight` leaves the terminal
counters alone. -/
lemma terminalsFired_set_inFlight (st : AppState) (n : Nat) :
    terminalsFired { st with inFlight := n } = terminalsFired st := rfl

/-- preservation of `PollInv` along prompt schedules, for any tick handler
that (a) leaves `inFlight` alone, (b) runs its terminal branch exactly once
per terminal response and then has the timer cleared, (c) does nothing to
the counters or the timer on a non-terminal response, and (d) maintains the
tick-after-terminal instrumentation.  Both poll handlers of app.js satisfy
(a)-(d). -/
lemma pollInv_run (handler : QueryResult → AppState → AppState)
    (hin : ∀ r st, (handler r st).inFlight = st.inFlight)
    (hterm : ∀ r st, IsTerminalResult r →
      terminalsFired (handler r st) = terminalsFired st + 1
      ∧ (handler r st).processingInterval = none)
    (hnon : ∀ r st, ¬IsTerminalResult r →
      terminalsFired (handler r st) = terminalsFired st
      ∧ (handler r st).processingInterval = st.processingInterval)
    (hflag : ∀ r st, (handler r st).tickAfterTerminal
      = (st.tickAfterTerminal || decide (0 < terminalsFired st))) :
    ∀ (tr : List PollStep) (st : AppState), PollInv st →
      promptFrom handler st tr = true → PollInv (runWith handler st tr) := by
  intro tr
  induction tr with
  | nil =>
      intro st h _
      simpa [runWith] using h
  | cons e tr ih =>
      intro st h hp
      obtain ⟨hfl, hter, hflag0, hlast⟩ := h
      have hrun : runWith handler st (e :: tr)
          = runWith handler (stepWith handler st e) tr := rfl
      rw [hrun]
      cases e with
      | timerFire =>
          rw [promptFrom] at hp
          simp only [Bool.and_eq_true, decide_eq_true_eq] at hp
          obtain ⟨⟨hsome, hzero⟩, hp'⟩ := hp
          apply ih _ _ hp'
          have hter0 : terminalsFired st = 0 := by
            by_contra hne
            have := (hlast (Nat.pos_of_ne_zero hne)).1
            rw [this] at hsome
            simp at hsome
          have hstep : stepWith handler st PollStep.timerFire
              = { st with inFlight := st.inFlight + 1 } := by
            simp [stepWith, hsome]
          rw [hstep]
          refine ⟨by simp [hzero], hter, hflag0, ?_⟩
          intro hpos
          rw [terminalsFired_set_inFlight, hter0] at hpos
          exact absurd hpos (by omega)
      | respond r =>
          rw [promptFrom] at hp
          simp only [Bool.and_eq_true, decide_eq_true_eq] at hp
          obtain ⟨hpos, hp'⟩ := hp
          apply ih _ _ hp'
          have hstep : stepWith handler st (PollStep.respond r)
              = handler r { st with inFlight := st.inFlight - 1 } := by
            simp [stepWith, hpos]
          have hter0 : terminalsFired st = 0 := by
            by_contra hne
            have := (hlast (Nat.pos_of_ne_zero hne)).2
            omega
          rw [hstep]
          set st1 : AppState := { st with inFlight := st.inFlight - 1 } with hst1
          have hter1 : terminalsFired st1 = 0 := hter0
          have hfl1 : st1.inFlight = 0 := by
            simp [hst1]
            omega
          refine ⟨?_, ?_, ?_, ?_⟩
          · rw [hin]
            omega
          · by_cases hterm_r : IsTerminalResult r
            · rw [(hterm r st1 hterm_r).1, hter1]
            · rw [(hnon r st1 hterm_r).1, hter1]
              omega
          · rw [hflag r st1, hter1]
            simpa [hst1] using hflag0
          · intro hpos'
            by_cases hterm_r : IsTerminalResult r
            · exact ⟨(hterm r st1 hterm_r).2, by rw [hin]; exact hfl1⟩
            · rw [(hnon r st1 hterm_r).1, hter1] at hpos'
              omega
      | teardown =>
          rw [promptFrom] at hp
          apply ih _ _ hp
          refine ⟨hfl, hter, hflag0, ?_⟩
          intro hpos
          have hpos' : 0 < terminalsFired st := hpos
          exact ⟨rfl, (hlast hpos').2⟩

/-- once the recurring timer is cleared and no query is in flight, nothing
observable happens any more on any schedule: no query is issued, no handler
body runs, nothing is displayed, no alert is raised.  This holds for any
handler because the handler can no longer be invoked. -/
lemma run_frozen (handler : QueryResult → AppState → AppState)
    (tr : List PollStep) (st : AppState)
    (hint : st.processingInterval = none) (hfl : st.inFlight = 0) :
    (runWith handler st tr).completedFired = st.completedFired
    ∧ (runWith handler st tr).failedFired = st.failedFired
    ∧ (runWith handler st tr).okTicks = st.okTicks
    ∧ (runWith handler st tr).errorTicks = st.errorTicks
    ∧ (runWith handler st tr).alerts = st.alerts
    ∧ (runWith handler st tr).loads = st.loads
    ∧ (runWith handler st tr).currentBatchId = st.currentBatchId
    ∧ (runWith handler st tr).currentBatchDocIds = st.currentBatchDocIds
    ∧ (runWith handler st tr).processingInterval = none
    ∧ (runWith handler st tr).inFlight = 0 := by
  induction tr generalizing st with
  | nil => simp [runWith, hint, hfl]
  | cons e tr ih =>
      have hrun : runWith handler st (e :: tr)
          = runWith handler (stepWith handler st e) tr := rfl
      rw [hrun]
      cases e with
      | timerFire =>
          have : stepWith handler st PollStep.timerFire = st := by
            simp [stepWith, hint]
          rw [this]
          exact ih st hint hfl
      | respond r =>
          have : stepWith handler st (PollStep.respond r) = st := by
            simp [stepWith, hfl]
          rw [this]
          exact ih st hint hfl
      | teardown =>
          have h1 : stepWith handler st PollStep.teardown = resetUpload st := rfl
          rw [h1]
          simpa [resetUpload, hfl] using
            ih (resetUpload st) (by simp [resetUpload]) (by simp [resetUpload, hfl])

/-- closed form of the animator run: after `n` ticks the closure counter is
`min n stageCount` and the timer is live exactly while `n ≤ stageCount`. -/
lemma animRun_spec (stageCount n : Nat) :
    animRun stageCount n
      = { step := min n stageCount, stepTimerActive := decide (n ≤ stageCount) } := by
  induction n with
  | zero => simp [animRun]
  | succ n ih =>
      rw [animRun, ih, agentStepTick]
      by_cases h1 : n ≤ stageCount
      · by_cases h2 : n < stageCount
        · simp [h1, h2, Nat.min_eq_left (Nat.le_of_lt h2), Nat.min_eq_left h2]
          omega
        · have : n = stageCount := by omega
          subst this
          simp
      · have h2 : ¬(n + 1 ≤ stageCount) := by omega
        simp [h1, h2]
        omega

/-- the state installed by a successful single submission satisfies the
poll invariant. -/
lemma pollInv_startSingle (docId : Nat) (st : AppState) : PollInv (startSingle docId st) := by
  refine ⟨?_, ?_, ?_, ?_⟩ <;> simp [startSingle, terminalsFired]

/-- the state installed by a successful batch submission satisfies the
poll invariant. -/
lemma pollInv_startBatch (batchId : Nat) (st : AppState) : PollInv (startBatch batchId st) := by
  refine ⟨?_, ?_, ?_, ?_⟩ <;> simp [startBatch, terminalsFired]

/-- the poll invariant holds after any prompt schedule of the single-flow
poller. -/
lemma pollInv_runSingle (docId : Nat) (st0 : AppState) (tr : List PollStep)
    (h : promptFrom (singleTickHandler docId) (startSingle docId st0) tr = true) :
    PollInv (runSingle docId (startSingle docId st0) tr) :=
  pollInv_run (singleTickHandler docId) (singleTickHandler_inFlight docId)
    (singleTickHandler_terminal docId) (singleTickHandler_nonterminal docId)
    (singleTickHandler_tickFlag docId) tr (startSingle docId st0)
    (pollInv_startSingle docId st0) h

/-- the poll invariant holds after any prompt schedule of the batch-flow
poller. -/
lemma pollInv_runBatch (batchId : Nat) (docIds : List Nat) (st0 : AppState)
    (tr : List PollStep)
    (h : promptFrom (batchTickHandler batchId docIds) (startBatch batchId st0) tr = true) :
    PollInv (runBatch batchId docIds (startBatch batchId st0) tr) :=
  pollInv_run (batchTickHandler batchId docIds) (batchTickHandler_inFlight batchId docIds)
    (batchTickHandler_terminal batchId docIds) (batchTickHandler_nonterminal batchId docIds)
    (batchTickHandler_tickFlag batchId docIds) tr (startBatch batchId st0)
    (pollInv_startBatch batchId st0) h

/-! Claim theorems. -/

/-- C1: for a single-job submission, when a polling tick's status query
returns Completed the recurring poll timer and the animator timer are both
cancelled, the completion handling (navigation to that job's analysis
view) fires exactly once over spec scenario A (three Processing ticks then
one Completed tick, each response processed before the next fire), and the
process-wide batch context is reset to empty before the new job is
displayed: the single recorded `loadAnalysis` call carries batch id `none`
and sees an already-emptied `currentBatchDocIds`.  The second half states
the per-response facts of the completed branch for an arbitrary state. -/
theorem c1_single_completed_handling (docId : Nat) (st0 st : AppState) :
    (validFrom (singleTickHandler docId) (startSingle docId st0) scenarioA = true
    ∧ (runSingle docId (startSingle docId st0) scenarioA).completedFired = 1
    ∧ (runSingle docId (startSingle docId st0) scenarioA).failedFired = 0
    ∧ (runSingle docId (startSingle docId st0) scenarioA).processingInterval = none
    ∧ (runSingle docId (startSingle docId st0) scenarioA).agentStepActive = false
    ∧ (runSingle docId (startSingle docId st0) scenarioA).currentBatchId = none
    ∧ (runSingle docId (startSingle docId st0) scenarioA).currentBatchDocIds = []
    ∧ (runSingle docId (startSingle docId st0) scenarioA).loads
        = [LoadEvent.loadAnalysisCall docId none []]
    ∧ (runSingle docId (startSingle docId st0) scenarioA).currentPage = Page.analysis)
    ∧ ((singleTickHandler docId (QueryResult.ok DocStatus.completed) st).processingInterval
        = none
    ∧ (singleTickHandler docId (QueryResult.ok DocStatus.completed) st).agentStepActive
        = false
    ∧ (singleTickHandler docId (QueryResult.ok DocStatus.completed) st).completedFired
        = st.completedFired + 1
    ∧ (singleTickHandler docId (QueryResult.ok DocStatus.completed) st).currentBatchId
        = none
    ∧ (singleTickHandler docId (QueryResult.ok DocStatus.completed) st).currentBatchDocIds
        = []
    ∧ (singleTickHandler docId (QueryResult.ok DocStatus.completed) st).loads
        = st.loads ++ [LoadEvent.loadAnalysisCall docId none []]) :=
  ⟨⟨rfl, rfl, rfl, rfl, rfl, rfl, rfl, rfl, rfl⟩, ⟨rfl, rfl, rfl, rfl, rfl, rfl⟩⟩

/-- C2 counterexample: the claim "the terminal callback fires at most once
and no further tick processing occurs after it" is false on the code.  The
poll callback is an async function driven by setInterval, so the timer can
fire again while the previous status query is still in flight; here two
completed responses are both processed, the terminal branch runs twice and
the second handler body runs after the first terminal branch had fired.
The exhibited schedule is realizable (validFrom). -/
theorem c2_counterexample :
    validFrom (singleTickHandler 1) (startSingle 1 blankState) overlapTrace = true
    ∧ terminalsFired (runSingle 1 (startSingle 1 blankState) overlapTrace) = 2
    ∧ (runSingle 1 (startSingle 1 blankState) overlapTrace).tickAfterTerminal = true := by
  decide

/-- C2 amended: provided every status response is processed before the
next timer fire (at most one query ever in flight), both pollers run a
terminal branch at most once, no handler body runs after a terminal branch
has fired, and once a terminal branch has fired the recurring timer is
cleared without any explicit cancel call. -/
theorem c2_terminal_once (docId batchId : Nat) (docIds : List Nat) (stS stB : AppState)
    (trS trB : List PollStep)
    (hS : promptFrom (singleTickHandler docId) (startSingle docId stS) trS = true)
    (hB : promptFrom (batchTickHandler batchId docIds) (startBatch batchId stB) trB = true) :
    (terminalsFired (runSingle docId (startSingle docId stS) trS) ≤ 1
      ∧ (runSingle docId (startSingle docId stS) trS).tickAfterTerminal = false
      ∧ (0 < terminalsFired (runSingle docId (startSingle docId stS) trS) →
          (runSingle docId (startSingle docId stS) trS).processingInterval = none))
    ∧ (terminalsFired (runBatch batchId docIds (startBatch batchId stB) trB) ≤ 1
      ∧ (runBatch batchId docIds (startBatch batchId stB) trB).tickAfterTerminal = false
      ∧ (0 < terminalsFired (runBatch batchId docIds (startBatch batchId stB) trB) →
          (runBatch batchId docIds (startBatch batchId stB) trB).processingInterval = none)) := by
  have h1 := pollInv_runSingle docId stS trS hS
  have h2 := pollInv_runBatch batchId docIds stB trB hB
  exact ⟨⟨h1.2.1, h1.2.2.1, fun h => (h1.2.2.2 h).1⟩,
    ⟨h2.2.1, h2.2.2.1, fun h => (h2.2.2.2 h).1⟩⟩

/-- C2 witness: the amended theorem applied to scenario-A-shaped prompt
schedules of both pollers. -/
theorem c2_terminal_once_witness :
    terminalsFired (runSingle 3 (startSingle 3 blankState) scenarioA) ≤ 1
    ∧ (runSingle 3 (startSingle 3 blankState) scenarioA).tickAfterTerminal = false
    ∧ (runSingle 3 (startSingle 3 blankState) scenarioA).processingInterval = none
    ∧ terminalsFired (runBatch 9 [4, 5] (startBatch 9 blankState) scenarioA) ≤ 1
    ∧ (runBatch 9 [4, 5] (startBatch 9 blankState) scenarioA).processingInterval = none := by
  have h := c2_terminal_once 3 9 [4, 5] blankState blankState scenarioA scenarioA
    (by decide) (by decide)
  exact ⟨h.1.1, h.1.2.1, h.1.2.2 (by decide), h.2.1, h.2.2.2 (by decide)⟩

/-- C3 counterexample: the claim "after resetUpload returns no tick,
completion, or failure processing runs, even for a response already in
flight" is false on the code.  resetUpload only clears the timers; there
is no cancelled flag, so a query that was in flight when resetUpload ran
is still processed when it resolves — here it completes the submission and
navigates.  The exhibited schedule is realizable (validFrom). -/
theorem c3_counterexample :
    validFrom (singleTickHandler 1) (startSingle 1 blankState) midFlightTeardownTrace = true
    ∧ (runSingle 1 (startSingle 1 blankState) midFlightTeardownTrace).completedFired = 1
    ∧ (runSingle 1 (startSingle 1 blankState) midFlightTeardownTrace).loads
        = [LoadEvent.loadAnalysisCall 1 none []] := by
  decide

/-- C3 amended: resetUpload cancels both recurring timers, so when no
status query is in flight at the moment it returns, no tick, completion or
failure processing runs afterwards on any schedule: counters, alerts and
displayed views stay frozen and the poll timer stays cleared.  (A response
already in flight is still processed — see the counterexample.) -/
theorem c3_teardown_amended (docId : Nat) (st : AppState) (tr : List PollStep)
    (hfl : st.inFlight = 0) :
    (runSingle docId (resetUpload st) tr).completedFired = st.completedFired
    ∧ (runSingle docId (resetUpload st) tr).failedFired = st.failedFired
    ∧ (runSingle docId (resetUpload st) tr).okTicks = st.okTicks
    ∧ (runSingle docId (resetUpload st) tr).errorTicks = st.errorTicks
    ∧ (runSingle docId (resetUpload st) tr).alerts = st.alerts
    ∧ (runSingle docId (resetUpload st) tr).loads = st.loads
    ∧ (runSingle docId (resetUpload st) tr).processingInterval = none := by
  have h := run_frozen (singleTickHandler docId) tr (resetUpload st)
    (by simp [resetUpload]) (by simp [resetUpload, hfl])
  exact ⟨h.1, h.2.1, h.2.2.1, h.2.2.2.1, h.2.2.2.2.1, h.2.2.2.2.2.1,
    h.2.2.2.2.2.2.2.2.1⟩

/-- C3 witness: the amended theorem at a concrete quiescent state and a
concrete post-teardown schedule. -/
theorem c3_teardown_amended_witness :
    (runSingle 2 (resetUpload batchCtxState) midFlightTeardownTrace).completedFired = 0
    ∧ (runSingle 2 (resetUpload batchCtxState) midFlightTeardownTrace).loads = []
    ∧ (runSingle 2 (resetUpload batchCtxState) midFlightTeardownTrace).processingInterval
        = none := by
  have h := c3_teardown_amended 2 batchCtxState midFlightTeardownTrace rfl
  exact ⟨h.1, h.2.2.2.2.2.1, h.2.2.2.2.2.2⟩

/-- C4 counterexample: the claim "tick N's response is fully processed
before tick N+1's status query is issued" is false on the code: the
setInterval timer fires on schedule whether or not the previous async
callback has finished awaiting its fetch, so a second query is issued
while the first is still in flight.  The exhibited schedule is realizable
(validFrom). -/
theorem c4_counterexample :
    validFrom (singleTickHandler 1) (startSingle 1 blankState)
      [PollStep.timerFire, PollStep.timerFire] = true
    ∧ (runSingle 1 (startSingle 1 blankState)
        [PollStep.timerFire, PollStep.timerFire]).inFlight = 2 := by
  decide

/-- C4 amended: polls of a single job do not overlap only under the timing
assumption that every status response is processed before the next timer
fire; under that assumption at most one query is in flight at any point of
the run. -/
theorem c4_no_overlap_amended (docId : Nat) (st0 : AppState) (tr : List PollStep)
    (h : promptFrom (singleTickHandler docId) (startSingle docId st0) tr = true) :
    (runSingle docId (startSingle docId st0) tr).inFlight ≤ 1 :=
  (pollInv_runSingle docId st0 tr h).1

/-- C4 witness: the amended theorem on the scenario-A schedule. -/
theorem c4_no_overlap_witness :
    (runSingle 2 (startSingle 2 blankState) scenarioA).inFlight ≤ 1 :=
  c4_no_overlap_amended 2 blankState scenarioA (by decide)

/-- C5: a polling tick whose status query fails with a transport error is
swallowed by the empty catch block of either poller: no terminal branch
runs, no alert is raised, nothing is displayed, the recurring timer and
the animator stay as they were, the error tick is merely counted, and the
next timer fire still issues a status query. -/
theorem c5_transport_error (docId batchId : Nat) (docIds : List Nat) (stS stB : AppState)
    (hS : 0 < stS.inFlight) (hB : 0 < stB.inFlight) :
    ((singleStep docId stS (PollStep.respond QueryResult.transportError)).processingInterval
        = stS.processingInterval
    ∧ (singleStep docId stS (PollStep.respond QueryResult.transportError)).agentStepActive
        = stS.agentStepActive
    ∧ (singleStep docId stS (PollStep.respond QueryResult.transportError)).completedFired
        = stS.completedFired
    ∧ (singleStep docId stS (PollStep.respond QueryResult.transportError)).failedFired
        = stS.failedFired
    ∧ (singleStep docId stS (PollStep.respond QueryResult.transportError)).alerts
        = stS.alerts
    ∧ (singleStep docId stS (PollStep.respond QueryResult.transportError)).loads
        = stS.loads
    ∧ (singleStep docId stS (PollStep.respond QueryResult.transportError)).errorTicks
        = stS.errorTicks + 1
    ∧ (stS.processingInterval.isSome = true →
        (singleStep docId (singleStep docId stS (PollStep.respond QueryResult.transportError))
            PollStep.timerFire).inFlight = stS.inFlight))
    ∧ ((batchStep batchId docIds stB (PollStep.respond QueryResult.transportError)).processingInterval
        = stB.processingInterval
    ∧ (batchStep batchId docIds stB (PollStep.respond QueryResult.transportError)).agentStepActive
        = stB.agentStepActive
    ∧ (batchStep batchId docIds stB (PollStep.respond QueryResult.transportError)).completedFired
        = stB.completedFired
    ∧ (batchStep batchId docIds stB (PollStep.respond QueryResult.transportError)).failedFired
        = stB.failedFired
    ∧ (batchStep batchId docIds stB (PollStep.respond QueryResult.transportError)).alerts
        = stB.alerts
    ∧ (batchStep batchId docIds stB (PollStep.respond QueryResult.transportError)).loads
        = stB.loads
    ∧ (batchStep batchId docIds stB (PollStep.respond QueryResult.transportError)).errorTicks
        = stB.errorTicks + 1) := by
  constructor
  · refine ⟨?_, ?_, ?_, ?_, ?_, ?_, ?_, fun hsome => ?_⟩ <;>
      simp [singleStep, stepWith, singleTickHandler, noteTickAfterTerminal, hS, *] <;>
      omega
  · refine ⟨?_, ?_, ?_, ?_, ?_, ?_, ?_⟩ <;>
      simp [batchStep, stepWith, batchTickHandler, noteTickAfterTerminal, hB]

/-- C5 witness: a transport-error tick at a concrete mid-poll state of each
flow. -/
theorem c5_transport_error_witness :
    (singleStep 7 { startSingle 7 blankState with inFlight := 1 }
        (PollStep.respond QueryResult.transportError)).processingInterval = some 7
    ∧ (singleStep 7 { startSingle 7 blankState with inFlight := 1 }
        (PollStep.respond QueryResult.transportError)).errorTicks = 1
    ∧ (batchStep 9 [4, 5] { startBatch 9 blankState with inFlight := 1 }
        (PollStep.respond QueryResult.transportError)).processingInterval = some 9 := by
  have h := c5_transport_error 7 9 [4, 5]
    { startSingle 7 blankState with inFlight := 1 }
    { startBatch 9 blankState with inFlight := 1 } (by decide) (by decide)
  exact ⟨h.1.1, h.1.2.2.2.2.2.2.1, h.2.1⟩

/-- C6: the batch-membership check of navigateTo's analysis branch, run
before the detail view loads: when an active batch exists, a requested
document inside `currentBatchDocIds` leaves the context untouched and the
view is loaded with that batch id, while a requested document outside it
resets the context to empty (batch id cleared, member list emptied) before
`loadAnalysis` runs; the context ends up cleared exactly when the id was
absent. -/
theorem c6_ensure_member (st : AppState) (d b : Nat) (h : st.currentBatchId = some b) :
    (d ∈ st.currentBatchDocIds →
        (navigateTo Page.analysis (some d) st).currentBatchId = some b
        ∧ (navigateTo Page.analysis (some d) st).currentBatchDocIds = st.currentBatchDocIds
        ∧ (navigateTo Page.analysis (some d) st).loads
            = st.loads ++ [LoadEvent.loadAnalysisCall d (some b) st.currentBatchDocIds])
    ∧ (d ∉ st.currentBatchDocIds →
        (navigateTo Page.analysis (some d) st).currentBatchId = none
        ∧ (navigateTo Page.analysis (some d) st).currentBatchDocIds = []
        ∧ (navigateTo Page.analysis (some d) st).loads
            = st.loads ++ [LoadEvent.loadAnalysisCall d none []])
    ∧ (((navigateTo Page.analysis (some d) st).currentBatchId = none
        ∧ (navigateTo Page.analysis (some d) st).currentBatchDocIds = [])
        ↔ d ∉ st.currentBatchDocIds) := by
  by_cases hd : d ∈ st.currentBatchDocIds <;>
    simp [navigateTo, loadAnalysis, h, hd]

/-- C6 witness: the membership check at a concrete context over documents
2 and 3, requesting the member 2 and the non-member 4. -/
theorem c6_ensure_member_witness :
    ((navigateTo Page.analysis (some 2) batchCtxState).currentBatchId = some 9
      ∧ (navigateTo Page.analysis (some 2) batchCtxState).currentBatchDocIds = [2, 3]
      ∧ (navigateTo Page.analysis (some 2) batchCtxState).loads
          = [LoadEvent.loadAnalysisCall 2 (some 9) [2, 3]])
    ∧ ((navigateTo Page.analysis (some 4) batchCtxState).currentBatchId = none
      ∧ (navigateTo Page.analysis (some 4) batchCtxState).currentBatchDocIds = []
      ∧ (navigateTo Page.analysis (some 4) batchCtxState).loads
          = [LoadEvent.loadAnalysisCall 4 none []]) := by
  constructor
  · have h := (c6_ensure_member batchCtxState 2 9 rfl).1 (by decide)
    simpa using h
  · have h := (c6_ensure_member batchCtxState 4 9 rfl).2.1 (by decide)
    simpa using h

/-- C7: the agent-step animator starts its stage index at 0, the index is
monotonically non-decreasing across ticks, it never exceeds the stage
count (no wrap-around), and the animator clears its own timer once the
index has reached the stage count. -/
theorem c7_animator_invariant (sc n m : Nat) (hmn : m ≤ n) :
    (animRun sc 0).step = 0
    ∧ (animRun sc m).step ≤ (animRun sc n).step
    ∧ (animRun sc n).step ≤ sc
    ∧ (animRun sc (sc + 1)).stepTimerActive = false
    ∧ (sc < n → (animRun sc n).stepTimerActive = false) := by
  refine ⟨?_, ?_, ?_, ?_, ?_⟩ <;> simp [animRun_spec] <;> omega

/-- C7 witness: the animator invariant over 4 stages at ticks 2 and 6. -/
theorem c7_animator_witness :
    (animRun 4 0).step = 0
    ∧ (animRun 4 2).step ≤ (animRun 4 6).step
    ∧ (animRun 4 6).step ≤ 4
    ∧ (animRun 4 (4 + 1)).stepTimerActive = false
    ∧ (4 < 6 → (animRun 4 6).stepTimerActive = false) :=
  c7_animator_invariant 4 6 2 (by decide)

/-- C8 counterexample: the claim "deleting a job or a batch tears down any
active poller for that id before the deletion completes" is false on the
code: neither deleteDocument nor deleteHistoryItem clears the timers, so
with a live poll timer for id 7 (resp. batch 9) and the user on the
documents (resp. dashboard) page, the timer is still live after a
successful deletion of that very id. -/
theorem c8_counterexample :
    (deleteDocument 7 pollingOnDocumentsState true).processingInterval = some 7
    ∧ (deleteHistoryItem HistoryKind.batch 9
        { blankState with processingInterval := some 9 } true).processingInterval
      = some 9 := by
  decide

/-- C8 amended: deletion does not tear down pollers.  After a successful
deleteDocument the poll timer is cleared only when the post-delete refresh
happens to navigate to the upload page (whose initializer runs
resetUpload); on every other page it is left exactly as it was, and
deleteHistoryItem never touches it. -/
theorem c8_delete_amended (docId rid : Nat) (ty : HistoryKind) (ok : Bool)
    (st st2 : AppState) :
    (deleteDocument docId st true).processingInterval
      = (if st.currentPage = Page.upload then none else st.processingInterval)
    ∧ (deleteHistoryItem ty rid st2 ok).processingInterval = st2.processingInterval := by
  constructor
  · cases hpage : st.currentPage <;>
      simp [deleteDocument, navigateTo, resetUpload, loadAnalysis, hpage]
  · cases ok <;> simp [deleteHistoryItem]

/-- C9: the single-job status poller ticks at a strictly shorter fixed
interval (3000 ms) than the batch status poller (5000 ms). -/
theorem c9_poll_intervals :
    singlePollIntervalMs < batchPollIntervalMs
    ∧ singlePollIntervalMs = 3000
    ∧ batchPollIntervalMs = 5000 := by
  decide

/-- C10: of all single-flow outcomes only the Completed branch clears the
process-wide batch context: the Failed branch, the Queued/Processing
branches, the swallowed transport error, and resetUpload itself all leave
`currentBatchId` and `currentBatchDocIds` unchanged, while the Completed
branch resets them to empty. -/
theorem c10_batch_context_frame (docId : Nat) (st : AppState) :
    ((singleTickHandler docId (QueryResult.ok DocStatus.failed) st).currentBatchId
        = st.currentBatchId
      ∧ (singleTickHandler docId (QueryResult.ok DocStatus.failed) st).currentBatchDocIds
        = st.currentBatchDocIds)
    ∧ ((resetUpload st).currentBatchId = st.currentBatchId
      ∧ (resetUpload st).currentBatchDocIds = st.currentBatchDocIds)
    ∧ ((singleTickHandler docId (QueryResult.ok DocStatus.queued) st).currentBatchId
        = st.currentBatchId
      ∧ (singleTickHandler docId (QueryResult.ok DocStatus.queued) st).currentBatchDocIds
        = st.currentBatchDocIds)
    ∧ ((singleTickHandler docId (QueryResult.ok DocStatus.processing) st).currentBatchId
        = st.currentBatchId
      ∧ (singleTickHandler docId (QueryResult.ok DocStatus.processing) st).currentBatchDocIds
        = st.currentBatchDocIds)
    ∧ ((singleTickHandler docId QueryResult.transportError st).currentBatchId
        = st.currentBatchId
      ∧ (singleTickHandler docId QueryResult.transportError st).currentBatchDocIds
        = st.currentBatchDocIds)
    ∧ ((singleTickHandler docId (QueryResult.ok DocStatus.completed) st).currentBatchId
        = none
      ∧ (singleTickHandler docId (QueryResult.ok DocStatus.completed) st).currentBatchDocIds
        = []) :=
  ⟨⟨rfl, rfl⟩, ⟨rfl, rfl⟩, ⟨rfl, rfl⟩, ⟨rfl, rfl⟩, ⟨rfl, rfl⟩, ⟨rfl, rfl⟩⟩

end DockGuardAI
